import Mathlib

/-!
Verification of the mpesa gateway client (`service.go`) against its
natural-language specification.

The Go code is shallowly embedded: the mutable `Client` record becomes a
Lean structure passed and returned explicitly; external collaborators
(the HTTP executor `base.Do`, the encryption helper, the request adapter,
the webhook receiver) are supplied as explicit outcome parameters, so each
operation is a pure function of its inputs and the outcomes of its
external calls.  Go's `(value, err)` return pairs become `GoResult`;
time instants and `time.Duration` values are `Int` nanoseconds, with
64-bit wrap-around applied where Go's `int64` multiplication can wrap.
-/

/-- Go `(value, err)` pair: `err = none` means success. -/
structure GoResult (α : Type) where
  val : α
  err : Option String
deriving Repr, DecidableEq

/-- Modelled from the spec: the `Platform` enum (its declaration is not in
`service.go`); an enumerated deployment context value with a fixed string
rendering. -/
inductive Platform where
  | openAPI
  | sandbox
deriving Repr, DecidableEq

/-- Modelled from the spec: the fixed string mapping `Platform.String()`. -/
def Platform.render : Platform → String
  | .openAPI => "openapi"
  | .sandbox => "sandbox"

/-- Modelled from the spec: the `Market` enum (its declaration is not in
`service.go`); an enumerated deployment context value with a fixed
URL-context string. -/
inductive Market where
  | vodacomTanzania
  | vodafoneGhana
deriving Repr, DecidableEq

/-- Modelled from the spec: the fixed string mapping `Market.URLContextValue()`. -/
def Market.urlContextValue : Market → String
  | .vodacomTanzania => "vodacomTZN"
  | .vodafoneGhana => "vodafoneGHA"

/-- The `Endpoints` struct of `service.go`. -/
structure Endpoints where
  AuthEndpoint : String
  PushEndpoint : String
  DisburseEndpoint : String
  QueryEndpoint : String
deriving Repr, DecidableEq

/-- The `Config` struct of `service.go`.  `SessionLifetimeMinutes` is a Go
`int64`, embedded as `Int`. -/
structure Config where
  Endpoints : Option Endpoints
  Name : String
  Version : String
  Description : String
  BasePath : String
  Market : Market
  Platform : Platform
  APIKey : String
  PublicKey : String
  SessionLifetimeMinutes : Int
  ServiceProvideCode : String
  TrustedSources : List String
deriving Repr, DecidableEq

/-- The session-relevant portion of the `Client` struct of `service.go`:
the configuration pointer (`Conf`), the cached session id (the string the
`sessionID` pointer refers to) and the cached expiration instant
(`sessionExpiration`, an instant in nanoseconds).  In Go, `Conf` aliases
the caller's `Config` value, so the caller's config after any operation is
this field. -/
structure Client where
  Conf : Config
  sessionID : String
  sessionExpiration : Int
deriving Repr, DecidableEq

/-- Reduction of an `Int` into the Go `int64` range, as Go's wrapping
two's-complement arithmetic does. -/
def int64Wrap (n : Int) : Int :=
  (n + 2 ^ 63) % 2 ^ 64 - 2 ^ 63

/-- Nanoseconds in Go's `time.Minute`. -/
def minuteNs : Int := 60000000000

/-- Go `time.Duration(m) * time.Minute`: minutes converted to a duration in
nanoseconds by an `int64` multiplication that wraps on overflow. -/
def durationOfMinutes (m : Int) : Int :=
  int64Wrap (m * minuteNs)

/-- The `NewClient` constructor of `service.go` (lines 74-112) with no
`ClientOption`s, for a construction instant `now` (Go's `time.Now()`):
captures `conf.BasePath` as the host, overwrites `conf.BasePath` with the
full gateway base path built from the platform and market renderings, and
initialises the cached session to the empty string with expiration `now`.
Because Go's `client.Conf` aliases the caller's `conf`, the returned
`Conf` field is the caller's config after the call. -/
def NewClient (conf : Config) (now : Int) : Client :=
  let basePath := conf.BasePath
  let p := "https://" ++ basePath ++ "/" ++ conf.Platform.render ++
      "/ipg/v2/" ++ conf.Market.urlContextValue ++ "/"
  { Conf := { conf with BasePath := p }
    sessionID := ""
    sessionExpiration := now }

/-- The `SessionResponse` shape, modelled from the spec
(`{id, outputErr?}`); its Go declaration is not in `service.go`. -/
structure SessionResponse where
  ID : String
  OutputErr : String
deriving Repr, DecidableEq

/-- Outcomes of the external calls `SessionID` makes: the result of
`c.getEncryptionKey()`, the transport error of `c.base.Do`, the
transport-declared error object `res.Error` of the returned response
metadata, and the `SessionResponse` the executor decoded into
`&response`. -/
structure SessEnv where
  encKeyRes : GoResult String
  doErr : Option String
  resErr : Option String
  response : SessionResponse
deriving Repr, DecidableEq

/-- The `SessionID` method of `service.go` (lines 114-154): encrypt the API
key, perform the authenticated session call, classify the outcome, and on
full success replace the cached session with the response id expiring
`SessionLifetimeMinutes` minutes after `now`.  Returns the Go
`(response, err)` pair together with the client state after the call. -/
def SessionID (c : Client) (now : Int) (env : SessEnv) :
    GoResult SessionResponse × Client :=
  match env.encKeyRes.err with
  | some e => (⟨⟨"", ""⟩, some e⟩, c)
  | none =>
    match env.doErr with
    | some e => (⟨env.response, some e⟩, c)
    | none =>
      match env.resErr with
      | some resErr =>
        (⟨⟨"", ""⟩, some ("could not fetch session id: " ++ resErr)⟩, c)
      | none =>
        if env.response.OutputErr ≠ "" then
          (⟨env.response,
            some ("could not fetch session id: " ++ env.response.OutputErr)⟩, c)
        else
          let sessLifeTimeMin := c.Conf.SessionLifetimeMinutes
          let sessID := env.response.ID
          let up := durationOfMinutes sessLifeTimeMin
          let expiration := now + up
          (⟨env.response, none⟩,
           { c with sessionExpiration := expiration, sessionID := sessID })

/-- Modelled from the spec: `checkSessionID` (the session cache's
`ensureSession`) is not in `service.go`.  It returns the cached session id
immediately if `now < expiresAt`; otherwise it acquires a fresh session
via `SessionID`, the cached session being replaced only on success, and
returns the new id.  The `Bool` records whether a refresh was performed. -/
def checkSessionID (c : Client) (now : Int) (env : SessEnv) :
    GoResult String × Client × Bool :=
  if now < c.sessionExpiration then
    (⟨c.sessionID, none⟩, c, false)
  else
    let acq := SessionID c now env
    match acq.1.err with
    | some e => (⟨"", some e⟩, acq.2, true)
    | none => (⟨acq.2.sessionID, none⟩, acq.2, true)

/-- The four steps of a payment/disbursement operation, in the order
`PushAsync` and `Disburse` perform them: consult the session cache
(refreshing when expired), encrypt the session token into the bearer
token, adapt the logical request into the wire payload, execute the
outbound HTTP call. -/
inductive Step where
  | session
  | encrypt
  | adapt
  | httpDo
deriving Repr, DecidableEq

/-- The wire payload produced by the request adapter, modelled from the
spec as an opaque gateway-specific JSON body (the adapter's Go code is not
in `service.go`, and no claim depends on the payload's internal layout). -/
structure WirePayload where
  body : String
deriving Repr, DecidableEq

/-- Outcomes of the external calls `PushAsync`/`Disburse` make, beyond the
session-cache consultation: the result of `encryptKey(sess, publicKey)` as
a function of the obtained session token `sess`, the result of
`c.requestAdapter.adapt`, the transport error of `c.base.Do`, and the
response the executor decoded into `&response`. -/
structure CallEnv (ρ : Type) where
  sessEnv : SessEnv
  encRes : String → GoResult String
  adaptRes : GoResult WirePayload
  doErr : Option String
  response : ρ

/-- The `PushAsyncResponse` shape, modelled from the spec
(operation-specific fields plus `outputErr?`); its Go declaration is not
in `service.go`. -/
structure PushAsyncResponse where
  ConversationID : String
  OutputErr : String
deriving Repr, DecidableEq

/-- The `DisburseResponse` shape, modelled from the spec
(operation-specific fields plus `outputErr?`); its Go declaration is not
in `service.go`. -/
structure DisburseResponse where
  TransactionID : String
  OutputErr : String
deriving Repr, DecidableEq

/-- The `PushAsync` method of `service.go` (lines 156-194): session token
from the cache, bearer-token encryption, request adaptation, HTTP call,
then business-error classification.  Returns the Go `(response, err)`
pair, the client state after the call, and the trace of steps that were
actually performed, in order. -/
def PushAsync (c : Client) (now : Int) (env : CallEnv PushAsyncResponse) :
    GoResult PushAsyncResponse × Client × List Step :=
  let sess := checkSessionID c now env.sessEnv
  let c1 := sess.2.1
  match sess.1.err with
  | some e => (⟨⟨"", ""⟩, some e⟩, c1, [.session])
  | none =>
    match (env.encRes sess.1.val).err with
    | some e => (⟨⟨"", ""⟩, some e⟩, c1, [.session, .encrypt])
    | none =>
      match env.adaptRes.err with
      | some e => (⟨⟨"", ""⟩, some e⟩, c1, [.session, .encrypt, .adapt])
      | none =>
        match env.doErr with
        | some e =>
          (⟨env.response, some e⟩, c1, [.session, .encrypt, .adapt, .httpDo])
        | none =>
          if env.response.OutputErr ≠ "" then
            (⟨env.response,
              some ("could not perform c2b single stage request: " ++
                env.response.OutputErr)⟩,
             c1, [.session, .encrypt, .adapt, .httpDo])
          else
            (⟨env.response, none⟩, c1, [.session, .encrypt, .adapt, .httpDo])

/-- The `Disburse` method of `service.go` (lines 196-234): the same
four-step sequence as `PushAsync`, with the disbursement operation kind
and its business-error message. -/
def Disburse (c : Client) (now : Int) (env : CallEnv DisburseResponse) :
    GoResult DisburseResponse × Client × List Step :=
  let sess := checkSessionID c now env.sessEnv
  let c1 := sess.2.1
  match sess.1.err with
  | some e => (⟨⟨"", ""⟩, some e⟩, c1, [.session])
  | none =>
    match (env.encRes sess.1.val).err with
    | some e => (⟨⟨"", ""⟩, some e⟩, c1, [.session, .encrypt])
    | none =>
      match env.adaptRes.err with
      | some e => (⟨⟨"", ""⟩, some e⟩, c1, [.session, .encrypt, .adapt])
      | none =>
        match env.doErr with
        | some e =>
          (⟨env.response, some e⟩, c1, [.session, .encrypt, .adapt, .httpDo])
        | none =>
          if env.response.OutputErr ≠ "" then
            (⟨env.response,
              some ("could not perform disburse request: " ++
                env.response.OutputErr)⟩,
             c1, [.session, .encrypt, .adapt, .httpDo])
          else
            (⟨env.response, none⟩, c1, [.session, .encrypt, .adapt, .httpDo])

/-- The inbound webhook body (`PushCallbackRequest`), modelled from the
spec as an opaque typed callback payload; its Go declaration is not in
`service.go`. -/
structure PushCallbackRequest where
  payload : String
deriving Repr, DecidableEq

/-- The caller-supplied handler's result type, modelled from the spec as
an opaque JSON-serialisable value; its Go declaration is not in
`service.go`. -/
structure PushCallbackResponse where
  payload : String
deriving Repr, DecidableEq

/-- What `CallbackServeHTTP` writes to the inbound HTTP caller: either a
plaintext error body (via `http.Error`) or the handler's result as a JSON
body. -/
inductive ReplyBody where
  | text (msg : String)
  | json (resp : PushCallbackResponse)
deriving Repr, DecidableEq

/-- The HTTP reply written by `CallbackServeHTTP`: status code, body, and
whether the `Content-Type: application/json` header was set. -/
structure HttpReply where
  status : Nat
  body : ReplyBody
  contentTypeJSON : Bool
deriving Repr, DecidableEq

/-- The `CallbackServeHTTP` method of `service.go` (lines 236-259):
decode the inbound body via the receiver (`receiveRes` is the receiver's
outcome), invoke the caller-supplied handler on success, and write back
either an HTTP 500 plaintext error or the handler's result as an HTTP 200
JSON response.  Returns the written reply together with a flag recording
whether the handler was invoked. -/
def CallbackServeHTTP (handler : PushCallbackRequest → GoResult PushCallbackResponse)
    (receiveRes : GoResult PushCallbackRequest) : HttpReply × Bool :=
  match receiveRes.err with
  | some e => (⟨500, .text e, false⟩, false)
  | none =>
    let reqBody := receiveRes.val
    let r := handler reqBody
    match r.err with
    | some e => (⟨500, .text e, false⟩, true)
    | none => (⟨200, .json r.val, true⟩, true)

/-- The `QueryTxParams` shape, modelled from the spec as an opaque query
input (the query operation's wire contract is unspecified upstream). -/
structure QueryTxParams where
  raw : String
deriving Repr, DecidableEq

/-- The `QueryTxResponse` shape, modelled from the spec as an opaque query
result (never produced by the code). -/
structure QueryTxResponse where
  raw : String
deriving Repr, DecidableEq

/-- Possible outcomes of invoking `QueryTx`: a Go `panic` with a message
(a fatal, non-recoverable signal) or a normal return. -/
inductive QueryOutcome where
  | panicked (msg : String)
  | ok (r : QueryTxResponse)
deriving Repr, DecidableEq

/-- The `QueryTx` method of `service.go` (lines 69-72): unconditionally
`panic("implement me")`. -/
def QueryTx (_req : QueryTxParams) : QueryOutcome :=
  .panicked "implement me"

/-- A sample configuration used to instantiate theorems on concrete
inputs; its `BasePath` is the host as supplied at construction. -/
def hostConf : Config :=
  { Endpoints := none
    Name := "app"
    Version := "1.0"
    Description := "sample"
    BasePath := "openapi.m-pesa.com"
    Market := .vodacomTanzania
    Platform := .sandbox
    APIKey := "apikey"
    PublicKey := "publickey"
    SessionLifetimeMinutes := 5
    ServiceProvideCode := "000000"
    TrustedSources := [] }

/-- A sample client constructed at instant `0` from `hostConf`. -/
def clientA : Client := NewClient hostConf 0

/-- Sample outcomes for a fully successful session acquisition. -/
def sessEnvOK : SessEnv := ⟨⟨"token", none⟩, none, none, ⟨"S1", ""⟩⟩

/-- Sample outcomes where all four steps of `PushAsync` succeed and the
response carries no business error. -/
def pushEnvOK : CallEnv PushAsyncResponse :=
  ⟨sessEnvOK, fun _ => ⟨"bearer", none⟩, ⟨⟨"payload"⟩, none⟩, none,
   ⟨"conv1", ""⟩⟩

/-- Sample outcomes where the four steps of `Disburse` succeed at the
transport level but the response carries a business error. -/
def disbEnvErr : CallEnv DisburseResponse :=
  ⟨sessEnvOK, fun _ => ⟨"bearer", none⟩, ⟨⟨"payload"⟩, none⟩, none,
   ⟨"", "insufficient balance"⟩⟩

/-- Sample outcomes where request adaptation fails for `PushAsync`. -/
def pushEnvAdaptFail : CallEnv PushAsyncResponse :=
  ⟨sessEnvOK, fun _ => ⟨"bearer", none⟩,
   ⟨⟨""⟩, some "missing field ThirdPartyID"⟩, none, ⟨"", ""⟩⟩

/-- Sample outcomes where request adaptation fails for `Disburse`. -/
def disbEnvAdaptFail : CallEnv DisburseResponse :=
  ⟨sessEnvOK, fun _ => ⟨"bearer", none⟩,
   ⟨⟨""⟩, some "missing field ThirdPartyID"⟩, none, ⟨"", ""⟩⟩

/-- A sample caller-supplied callback handler that always succeeds. -/
def sampleHandler : PushCallbackRequest → GoResult PushCallbackResponse :=
  fun _ => ⟨⟨"handled"⟩, none⟩

/-- A sample caller-supplied callback handler that always fails. -/
def failingHandler : PushCallbackRequest → GoResult PushCallbackResponse :=
  fun _ => ⟨⟨""⟩, some "handler exploded"⟩

/-- A sample receiver outcome for an undecodable inbound body. -/
def badReceive : GoResult PushCallbackRequest := ⟨⟨""⟩, some "bad json"⟩

/-- A sample receiver outcome for a successfully decoded inbound body. -/
def goodReceive : GoResult PushCallbackRequest := ⟨⟨"callback body"⟩, none⟩

/-- If an `Int` already lies in the `int64` range, Go's wrap-around leaves
it unchanged. -/
theorem int64Wrap_eq_of_range (n : Int) (h1 : -(2 ^ 63) ≤ n)
    (h2 : n < 2 ^ 63) : int64Wrap n = n := by
  have h63 : (2 : Int) ^ 63 = 9223372036854775808 := by norm_num
  have h64 : (2 : Int) ^ 64 = 18446744073709551616 := by norm_num
  unfold int64Wrap
  rw [h63, h64]
  rw [h63] at h1 h2
  omega

set_option linter.unnecessarySeqFocus false in
/-- SessionID never changes the configuration. -/
theorem SessionID_Conf_eq (c : Client) (now : Int) (env : SessEnv) :
    (SessionID c now env).2.Conf = c.Conf := by
  obtain ⟨⟨ekv, eke⟩, dd, re, rs⟩ := env
  cases eke <;> cases dd <;> cases re <;>
    simp only [SessionID] <;>
    first
      | rfl
      | (by_cases hout : rs.OutputErr = "" <;> simp [hout])

/-- The session-cache consultation never changes the configuration. -/
theorem checkSessionID_Conf_eq (c : Client) (now : Int) (env : SessEnv) :
    (checkSessionID c now env).2.1.Conf = c.Conf := by
  unfold checkSessionID
  by_cases h : now < c.sessionExpiration
  · simp [h]
  · have hc := SessionID_Conf_eq c now env
    cases he : (SessionID c now env).1.err <;> simp [h, he, hc]

/-- PushAsync never changes the configuration. -/
theorem PushAsync_Conf_eq (c : Client) (now : Int)
    (env : CallEnv PushAsyncResponse) :
    (PushAsync c now env).2.1.Conf = c.Conf := by
  have hc := checkSessionID_Conf_eq c now env.sessEnv
  unfold PushAsync
  cases hs : (checkSessionID c now env.sessEnv).1.err <;>
    simp only [hs] <;>
    [skip; exact hc]
  cases he : (env.encRes (checkSessionID c now env.sessEnv).1.val).err <;>
    simp only [he] <;>
    [skip; exact hc]
  cases ha : env.adaptRes.err <;>
    simp only [ha] <;>
    [skip; exact hc]
  cases hd : env.doErr <;>
    simp only [hd] <;>
    [skip; exact hc]
  by_cases hout : env.response.OutputErr = "" <;> simp [hout, hc]

/-- Disburse never changes the configuration. -/
theorem Disburse_Conf_eq (c : Client) (now : Int)
    (env : CallEnv DisburseResponse) :
    (Disburse c now env).2.1.Conf = c.Conf := by
  have hc := checkSessionID_Conf_eq c now env.sessEnv
  unfold Disburse
  cases hs : (checkSessionID c now env.sessEnv).1.err <;>
    simp only [hs] <;>
    [skip; exact hc]
  cases he : (env.encRes (checkSessionID c now env.sessEnv).1.val).err <;>
    simp only [he] <;>
    [skip; exact hc]
  cases ha : env.adaptRes.err <;>
    simp only [ha] <;>
    [skip; exact hc]
  cases hd : env.doErr <;>
    simp only [hd] <;>
    [skip; exact hc]
  by_cases hout : env.response.OutputErr = "" <;> simp [hout, hc]

/-- C1: for every successful session acquisition (encryption succeeds, the
transport call succeeds, the response carries no transport-declared error
object, and the business-error field `OutputErr` is empty), `SessionID`
replaces any prior cached session with one whose id is the response's `ID`
and whose expiration is the current instant plus `SessionLifetimeMinutes`
minutes, and returns the parsed response unchanged with no error.  The
range hypothesis keeps the minutes-to-duration conversion inside the
`int64` range, where Go's arithmetic does not wrap. -/
theorem sessionID_success_updates_cache (c : Client) (now : Int)
    (env : SessEnv)
    (henc : env.encKeyRes.err = none) (hdo : env.doErr = none)
    (hres : env.resErr = none) (hout : env.response.OutputErr = "")
    (hrange : -(2 ^ 63) ≤ c.Conf.SessionLifetimeMinutes * minuteNs ∧
      c.Conf.SessionLifetimeMinutes * minuteNs < 2 ^ 63) :
    SessionID c now env =
      (⟨env.response, none⟩,
       { c with
          sessionID := env.response.ID,
          sessionExpiration :=
            now + c.Conf.SessionLifetimeMinutes * minuteNs }) := by
  have hw := int64Wrap_eq_of_range (c.Conf.SessionLifetimeMinutes * minuteNs)
    hrange.1 hrange.2
  simp only [SessionID, henc, hdo, hres, durationOfMinutes, hw]
  simp [hout]

/-- C1 witness: a concrete successful acquisition against `clientA`
(five-minute session lifetime) at instant `1000` with response
`{ID := "S1", OutputErr := ""}` caches session `"S1"` expiring five
minutes after `1000`. -/
theorem sessionID_success_updates_cache_witness :
    SessionID clientA 1000
        ⟨⟨"token", none⟩, none, none, ⟨"S1", ""⟩⟩ =
      (⟨⟨"S1", ""⟩, none⟩,
       { clientA with
          sessionID := "S1",
          sessionExpiration :=
            1000 + clientA.Conf.SessionLifetimeMinutes * minuteNs }) :=
  sessionID_success_updates_cache clientA 1000
    ⟨⟨"token", none⟩, none, none, ⟨"S1", ""⟩⟩
    rfl rfl rfl rfl (by decide)

set_option linter.unnecessarySeqFocus false in
/-- C2: whenever `SessionID` returns an error — encryption failure,
transport failure, transport-declared error object, or non-empty
business-error field — the cached session id and expiration (indeed the
whole client state) are exactly what they were before the call. -/
theorem sessionID_error_preserves_state (c : Client) (now : Int)
    (env : SessEnv) (h : (SessionID c now env).1.err ≠ none) :
    (SessionID c now env).2 = c := by
  obtain ⟨⟨ekv, eke⟩, dd, re, rs⟩ := env
  cases eke <;> cases dd <;> cases re <;>
    simp only [SessionID] at h ⊢ <;>
    first
      | rfl
      | (by_cases hout : rs.OutputErr = "" <;> simp [hout] at h ⊢)

/-- C2 witness: a concrete acquisition against `clientA` whose response
carries the business error `"invalid key"` errs and leaves the client
state untouched. -/
theorem sessionID_error_preserves_state_witness :
    (SessionID clientA 1000
        ⟨⟨"token", none⟩, none, none, ⟨"", "invalid key"⟩⟩).1.err ≠ none ∧
    (SessionID clientA 1000
        ⟨⟨"token", none⟩, none, none, ⟨"", "invalid key"⟩⟩).2 = clientA :=
  ⟨by decide,
   sessionID_error_preserves_state clientA 1000
     ⟨⟨"token", none⟩, none, none, ⟨"", "invalid key"⟩⟩ (by decide)⟩

/-- C5 counterexample: the configuration is not immutable across
`NewClient`.  For the concrete `hostConf` (whose `BasePath` is the host
`"openapi.m-pesa.com"`), the caller's config after construction — which
`client.Conf` aliases — has its `BasePath` overwritten with the computed
gateway base path, so it no longer equals the supplied value. -/
theorem newClient_mutates_basePath_cex :
    (NewClient hostConf 0).Conf.BasePath ≠ hostConf.BasePath := by
  decide

/-- C5 amended: every field of the supplied configuration except
`BasePath` keeps the caller's value after `NewClient`, and no client
operation (`SessionID`, `PushAsync`, `Disburse`) ever changes the
configuration; `BasePath` alone is overwritten at construction with the
computed gateway base path. -/
theorem newClient_config_immutable_except_basePath (conf : Config)
    (now : Int) :
    (NewClient conf now).Conf.Endpoints = conf.Endpoints ∧
    (NewClient conf now).Conf.Name = conf.Name ∧
    (NewClient conf now).Conf.Version = conf.Version ∧
    (NewClient conf now).Conf.Description = conf.Description ∧
    (NewClient conf now).Conf.Market = conf.Market ∧
    (NewClient conf now).Conf.Platform = conf.Platform ∧
    (NewClient conf now).Conf.APIKey = conf.APIKey ∧
    (NewClient conf now).Conf.PublicKey = conf.PublicKey ∧
    (NewClient conf now).Conf.SessionLifetimeMinutes =
      conf.SessionLifetimeMinutes ∧
    (NewClient conf now).Conf.ServiceProvideCode =
      conf.ServiceProvideCode ∧
    (NewClient conf now).Conf.TrustedSources = conf.TrustedSources ∧
    (NewClient conf now).Conf.BasePath =
      "https://" ++ conf.BasePath ++ "/" ++ conf.Platform.render ++
        "/ipg/v2/" ++ conf.Market.urlContextValue ++ "/" ∧
    (∀ (c : Client) (t : Int) (env : SessEnv),
      (SessionID c t env).2.Conf = c.Conf) ∧
    (∀ (c : Client) (t : Int) (env : CallEnv PushAsyncResponse),
      (PushAsync c t env).2.1.Conf = c.Conf) ∧
    (∀ (c : Client) (t : Int) (env : CallEnv DisburseResponse),
      (Disburse c t env).2.1.Conf = c.Conf) := by
  refine ⟨rfl, rfl, rfl, rfl, rfl, rfl, rfl, rfl, rfl, rfl, rfl, rfl,
    SessionID_Conf_eq, PushAsync_Conf_eq, Disburse_Conf_eq⟩

/-- C6: for every market, platform and configured host (the supplied
`BasePath`), the constructed client's base path is exactly
`https://` ++ host ++ `/` ++ platform rendering ++ `/ipg/v2/` ++ market
URL-context string ++ `/`. -/
theorem newClient_basePath_pattern (conf : Config) (now : Int) :
    (NewClient conf now).Conf.BasePath =
      "https://" ++ conf.BasePath ++ "/" ++ conf.Platform.render ++
        "/ipg/v2/" ++ conf.Market.urlContextValue ++ "/" := rfl

/-- C9: for every input, `QueryTx` yields the explicit not-implemented
fatal signal (Go `panic("implement me")`) and never a successful
`QueryTxResponse`. -/
theorem queryTx_not_implemented (req : QueryTxParams) :
    QueryTx req = QueryOutcome.panicked "implement me" ∧
    ∀ r : QueryTxResponse, QueryTx req ≠ QueryOutcome.ok r := by
  exact ⟨rfl, fun r h => QueryOutcome.noConfusion h⟩

/-- C10: immediately after `NewClient` returns, the cached session is
already expired: its id is the empty string and its expiration is the
construction instant itself, so any later cache consultation
(`checkSessionID`, as `PushAsync` and `Disburse` perform it) refreshes
the session. -/
theorem newClient_session_starts_expired (conf : Config) (t now : Int)
    (env : SessEnv) (h : t ≤ now) :
    (NewClient conf t).sessionID = "" ∧
    (NewClient conf t).sessionExpiration = t ∧
    (checkSessionID (NewClient conf t) now env).2.2 = true := by
  refine ⟨rfl, rfl, ?_⟩
  have hlt : ¬ now < (NewClient conf t).sessionExpiration := by
    show ¬ now < t
    omega
  unfold checkSessionID
  cases he : (SessionID (NewClient conf t) now env).1.err <;> simp [hlt, he]

/-- C10 witness: a fresh client built from `hostConf` at instant `0`,
consulted at instant `0`, has an empty expired session and performs a
refresh. -/
theorem newClient_session_starts_expired_witness :
    (NewClient hostConf 0).sessionID = "" ∧
    (NewClient hostConf 0).sessionExpiration = 0 ∧
    (checkSessionID (NewClient hostConf 0) 0
      ⟨⟨"token", none⟩, none, none, ⟨"S1", ""⟩⟩).2.2 = true :=
  newClient_session_starts_expired hostConf 0 0
    ⟨⟨"token", none⟩, none, none, ⟨"S1", ""⟩⟩ (by decide)

/-- C3: for `PushAsync` and `Disburse`, once the session token, bearer
encryption, adaptation and the HTTP executor call have all succeeded, the
operation errs if and only if the response's business-error field
`OutputErr` is non-empty; with empty `OutputErr` the parsed response is
returned with no error, and with non-empty `OutputErr` the returned error
message contains `OutputErr`. -/
theorem push_disburse_business_error_iff (c : Client) (now : Int)
    (envP : CallEnv PushAsyncResponse) (envD : CallEnv DisburseResponse)
    (hsP : (checkSessionID c now envP.sessEnv).1.err = none)
    (heP : (envP.encRes (checkSessionID c now envP.sessEnv).1.val).err = none)
    (haP : envP.adaptRes.err = none)
    (hdP : envP.doErr = none)
    (hsD : (checkSessionID c now envD.sessEnv).1.err = none)
    (heD : (envD.encRes (checkSessionID c now envD.sessEnv).1.val).err = none)
    (haD : envD.adaptRes.err = none)
    (hdD : envD.doErr = none) :
    (((PushAsync c now envP).1.err = none ↔
        envP.response.OutputErr = "") ∧
     (envP.response.OutputErr = "" →
        (PushAsync c now envP).1 = ⟨envP.response, none⟩) ∧
     (envP.response.OutputErr ≠ "" →
        (PushAsync c now envP).1 =
          ⟨envP.response,
           some ("could not perform c2b single stage request: " ++
             envP.response.OutputErr)⟩ ∧
        ∃ pre, (PushAsync c now envP).1.err =
          some (pre ++ envP.response.OutputErr))) ∧
    (((Disburse c now envD).1.err = none ↔
        envD.response.OutputErr = "") ∧
     (envD.response.OutputErr = "" →
        (Disburse c now envD).1 = ⟨envD.response, none⟩) ∧
     (envD.response.OutputErr ≠ "" →
        (Disburse c now envD).1 =
          ⟨envD.response,
           some ("could not perform disburse request: " ++
             envD.response.OutputErr)⟩ ∧
        ∃ pre, (Disburse c now envD).1.err =
          some (pre ++ envD.response.OutputErr))) := by
  have hP : (PushAsync c now envP).1 =
      if envP.response.OutputErr = "" then ⟨envP.response, none⟩
      else ⟨envP.response,
        some ("could not perform c2b single stage request: " ++
          envP.response.OutputErr)⟩ := by
    unfold PushAsync
    simp only [hsP, heP, haP, hdP]
    by_cases hout : envP.response.OutputErr = "" <;> simp [hout]
  have hD : (Disburse c now envD).1 =
      if envD.response.OutputErr = "" then ⟨envD.response, none⟩
      else ⟨envD.response,
        some ("could not perform disburse request: " ++
          envD.response.OutputErr)⟩ := by
    unfold Disburse
    simp only [hsD, heD, haD, hdD]
    by_cases hout : envD.response.OutputErr = "" <;> simp [hout]
  constructor
  · refine ⟨?_, ?_, ?_⟩
    · rw [hP]
      by_cases hout : envP.response.OutputErr = "" <;> simp [hout]
    · intro hout; rw [hP, if_pos hout]
    · intro hout
      refine ⟨by rw [hP, if_neg hout], ?_⟩
      exact ⟨"could not perform c2b single stage request: ",
        by rw [hP, if_neg hout]⟩
  · refine ⟨?_, ?_, ?_⟩
    · rw [hD]
      by_cases hout : envD.response.OutputErr = "" <;> simp [hout]
    · intro hout; rw [hD, if_pos hout]
    · intro hout
      refine ⟨by rw [hD, if_neg hout], ?_⟩
      exact ⟨"could not perform disburse request: ",
        by rw [hD, if_neg hout]⟩

/-- C3 witness: against `clientA`, a concrete push whose response has an
empty `OutputErr` succeeds, and a concrete disbursement whose response
carries `OutputErr = "insufficient balance"` errs with a message ending in
that field. -/
theorem push_disburse_business_error_iff_witness :
    (PushAsync clientA 0 pushEnvOK).1.err = none ∧
    (Disburse clientA 0 disbEnvErr).1 =
      ⟨⟨"", "insufficient balance"⟩,
       some "could not perform disburse request: insufficient balance"⟩ := by
  have h := push_disburse_business_error_iff clientA 0 pushEnvOK disbEnvErr
    rfl rfl rfl rfl rfl rfl rfl rfl
  exact ⟨h.1.1.mpr rfl, (h.2.2.2 (by decide)).1⟩

/-- C4: `PushAsync` and `Disburse` perform the same four-step sequence in
order — session-cache consultation, bearer-token encryption, request
adaptation, HTTP call — and a failure at any step surfaces that step's
error with no later step performed; in particular an adaptation failure
means the HTTP step never appears in the executed trace. -/
theorem push_disburse_step_sequence (c : Client) (now : Int)
    (envP : CallEnv PushAsyncResponse) (envD : CallEnv DisburseResponse) :
    ((∀ e, (checkSessionID c now envP.sessEnv).1.err = some e →
        (PushAsync c now envP).1.err = some e ∧
        (PushAsync c now envP).2.2 = [Step.session]) ∧
     ((checkSessionID c now envP.sessEnv).1.err = none →
      ∀ e,
        (envP.encRes (checkSessionID c now envP.sessEnv).1.val).err =
          some e →
        (PushAsync c now envP).1.err = some e ∧
        (PushAsync c now envP).2.2 = [Step.session, Step.encrypt]) ∧
     ((checkSessionID c now envP.sessEnv).1.err = none →
      (envP.encRes (checkSessionID c now envP.sessEnv).1.val).err = none →
      ∀ e, envP.adaptRes.err = some e →
        (PushAsync c now envP).1.err = some e ∧
        (PushAsync c now envP).2.2 =
          [Step.session, Step.encrypt, Step.adapt] ∧
        Step.httpDo ∉ (PushAsync c now envP).2.2) ∧
     ((checkSessionID c now envP.sessEnv).1.err = none →
      (envP.encRes (checkSessionID c now envP.sessEnv).1.val).err = none →
      envP.adaptRes.err = none →
        (PushAsync c now envP).2.2 =
          [Step.session, Step.encrypt, Step.adapt, Step.httpDo] ∧
        ∀ e, envP.doErr = some e →
          (PushAsync c now envP).1.err = some e)) ∧
    ((∀ e, (checkSessionID c now envD.sessEnv).1.err = some e →
        (Disburse c now envD).1.err = some e ∧
        (Disburse c now envD).2.2 = [Step.session]) ∧
     ((checkSessionID c now envD.sessEnv).1.err = none →
      ∀ e,
        (envD.encRes (checkSessionID c now envD.sessEnv).1.val).err =
          some e →
        (Disburse c now envD).1.err = some e ∧
        (Disburse c now envD).2.2 = [Step.session, Step.encrypt]) ∧
     ((checkSessionID c now envD.sessEnv).1.err = none →
      (envD.encRes (checkSessionID c now envD.sessEnv).1.val).err = none →
      ∀ e, envD.adaptRes.err = some e →
        (Disburse c now envD).1.err = some e ∧
        (Disburse c now envD).2.2 =
          [Step.session, Step.encrypt, Step.adapt] ∧
        Step.httpDo ∉ (Disburse c now envD).2.2) ∧
     ((checkSessionID c now envD.sessEnv).1.err = none →
      (envD.encRes (checkSessionID c now envD.sessEnv).1.val).err = none →
      envD.adaptRes.err = none →
        (Disburse c now envD).2.2 =
          [Step.session, Step.encrypt, Step.adapt, Step.httpDo] ∧
        ∀ e, envD.doErr = some e →
          (Disburse c now envD).1.err = some e)) := by
  constructor
  · refine ⟨?_, ?_, ?_, ?_⟩
    · intro e hs
      simp [PushAsync, hs]
    · intro hs e he
      simp [PushAsync, hs, he]
    · intro hs he e ha
      simp [PushAsync, hs, he, ha]
    · intro hs he ha
      constructor
      · cases hd : envP.doErr
        · by_cases hout : envP.response.OutputErr = "" <;>
            simp [PushAsync, hs, he, ha, hd, hout]
        · simp [PushAsync, hs, he, ha, hd]
      · intro e hd
        simp [PushAsync, hs, he, ha, hd]
  · refine ⟨?_, ?_, ?_, ?_⟩
    · intro e hs
      simp [Disburse, hs]
    · intro hs e he
      simp [Disburse, hs, he]
    · intro hs he e ha
      simp [Disburse, hs, he, ha]
    · intro hs he ha
      constructor
      · cases hd : envD.doErr
        · by_cases hout : envD.response.OutputErr = "" <;>
            simp [Disburse, hs, he, ha, hd, hout]
        · simp [Disburse, hs, he, ha, hd]
      · intro e hd
        simp [Disburse, hs, he, ha, hd]

/-- C4 witness: against `clientA`, concrete push and disbursement calls
whose request adaptation fails surface the adaptation error with a trace
that stops at the adaptation step, so no HTTP call is made. -/
theorem push_disburse_step_sequence_witness :
    ((PushAsync clientA 0 pushEnvAdaptFail).1.err =
        some "missing field ThirdPartyID" ∧
      (PushAsync clientA 0 pushEnvAdaptFail).2.2 =
        [Step.session, Step.encrypt, Step.adapt] ∧
      Step.httpDo ∉ (PushAsync clientA 0 pushEnvAdaptFail).2.2) ∧
    ((Disburse clientA 0 disbEnvAdaptFail).1.err =
        some "missing field ThirdPartyID" ∧
      (Disburse clientA 0 disbEnvAdaptFail).2.2 =
        [Step.session, Step.encrypt, Step.adapt] ∧
      Step.httpDo ∉ (Disburse clientA 0 disbEnvAdaptFail).2.2) := by
  have h := push_disburse_step_sequence clientA 0 pushEnvAdaptFail
    disbEnvAdaptFail
  exact ⟨h.1.2.2.1 rfl rfl "missing field ThirdPartyID" rfl,
    h.2.2.2.1 rfl rfl "missing field ThirdPartyID" rfl⟩

/-- C7: an inbound callback whose body fails to decode yields an HTTP 500
response carrying the decode error's message, and the caller-supplied
handler is never invoked — the written reply does not depend on the
handler at all. -/
theorem callback_decode_failure_no_handler
    (handler : PushCallbackRequest → GoResult PushCallbackResponse)
    (receiveRes : GoResult PushCallbackRequest) (e : String)
    (h : receiveRes.err = some e) :
    CallbackServeHTTP handler receiveRes =
      (⟨500, ReplyBody.text e, false⟩, false) ∧
    ∀ handler2,
      CallbackServeHTTP handler2 receiveRes =
        CallbackServeHTTP handler receiveRes := by
  constructor
  · simp [CallbackServeHTTP, h]
  · intro handler2
    simp [CallbackServeHTTP, h]

/-- C7 witness: a concrete undecodable inbound body (`badReceive`) yields
HTTP 500 with the decode error message and the handler-invoked flag
false. -/
theorem callback_decode_failure_no_handler_witness :
    CallbackServeHTTP sampleHandler badReceive =
      (⟨500, ReplyBody.text "bad json", false⟩, false) :=
  (callback_decode_failure_no_handler sampleHandler badReceive
    "bad json" rfl).1

/-- C8: an inbound callback whose body decodes successfully is answered
according to the handler's outcome: a handler result is written as an
HTTP 200 JSON response with `Content-Type: application/json`; a handler
error is written as an HTTP 500 response carrying the handler's error
message. -/
theorem callback_decode_success_reply
    (handler : PushCallbackRequest → GoResult PushCallbackResponse)
    (receiveRes : GoResult PushCallbackRequest)
    (h : receiveRes.err = none) :
    ((handler receiveRes.val).err = none →
      CallbackServeHTTP handler receiveRes =
        (⟨200, ReplyBody.json (handler receiveRes.val).val, true⟩, true)) ∧
    (∀ e, (handler receiveRes.val).err = some e →
      CallbackServeHTTP handler receiveRes =
        (⟨500, ReplyBody.text e, false⟩, true)) := by
  constructor
  · intro hh
    simp [CallbackServeHTTP, h, hh]
  · intro e hh
    simp [CallbackServeHTTP, h, hh]

/-- C8 witness: a concrete decodable inbound body (`goodReceive`) with the
always-succeeding handler yields HTTP 200 with the handler's result as
JSON body, and with the always-failing handler yields HTTP 500 with the
handler's error message. -/
theorem callback_decode_success_reply_witness :
    CallbackServeHTTP sampleHandler goodReceive =
      (⟨200, ReplyBody.json ⟨"handled"⟩, true⟩, true) ∧
    CallbackServeHTTP failingHandler goodReceive =
      (⟨500, ReplyBody.text "handler exploded", false⟩, true) :=
  ⟨(callback_decode_success_reply sampleHandler goodReceive rfl).1 rfl,
   (callback_decode_success_reply failingHandler goodReceive rfl).2
     "handler exploded" rfl⟩
